import Mathlib

/-!
Verification of the TruckLog Pro front-end core (src/src/App.jsx).

Shallow embedding of the three stateful/derivational cores of the
driverlogbook front-end:

* the compliance aggregator (trip-hour totals, remaining-cycle hours,
  estimated driving time and the display placeholder; App.jsx lines
  210, 264-265, 428-438);
* the request lifecycle of `handleSubmit` (App.jsx lines 74-108 and
  391-425): begin-submit, response settling, error fallbacks;
* the map synchronization effects: the map-init `useEffect`
  (lines 22-39) and the route-sync `useEffect` (lines 41-72).

Hours and miles are JS numbers in the source; they are embedded as `ℚ`
(all the constants involved are exact decimals).  `.toFixed(1)` is the
ECMA-262 `Number.prototype.toFixed` rounding, embedded as rounding of
`10·q` to the nearest integer, taking the larger integer on ties (the
`round` of `ℚ`), which is the idealization ECMA specifies.
-/

namespace TruckLog

/-- An `ActivityEntry` of a day log, as consumed from the service reply
(fields `activity`, `duration`, `color` of each element of
`dayLog.entries`). -/
structure ActivityEntry where
  activity : String
  duration : ℚ
  color : String
  deriving Repr, DecidableEq

/-- A `DayLog` as consumed from the service reply: `day`, `entries`, and
the four per-day totals read at App.jsx lines 242-256 and 587-606. -/
structure DayLog where
  day : ℤ
  entries : List ActivityEntry
  total_driving : ℚ
  total_on_duty : ℚ
  total_sleeper : ℚ
  total_off_duty : ℚ
  deriving Repr, DecidableEq

/-- A route point, the `[lat, lng]` pair delivered in
`data.route.route_points`. -/
abbrev Point : Type := ℚ × ℚ

/-- The function `calculateTotalTripHours` (App.jsx lines 428-432, and
inline at line 264): the fold
`logs.reduce((acc, day) => acc + day.total_driving + day.total_on_duty, 0)`.
The source formats the result with `.toFixed(1)` for display; the numeric
value is this fold. -/
def calculateTotalTripHours (logs : List DayLog) : ℚ :=
  logs.foldl (fun acc day => acc + day.total_driving + day.total_on_duty) 0

/-- The function `calculateRemainingCycle` (App.jsx lines 434-438, and
inline at line 265): `Math.max(0, 70 - (currentCycleUsed + totalTripHours))`,
on the exact total of line 265 (the `.toFixed(1)` wrappers only affect
the displayed precision). -/
def calculateRemainingCycle (currentCycleUsed : ℚ) (logs : List DayLog) : ℚ :=
  max 0 (70 - (currentCycleUsed + calculateTotalTripHours logs))

/-- The estimated-driving-time expression `totalDistance / 55`
(App.jsx lines 210 and 552). -/
def estimatedDrivingHours (totalDistanceMiles : ℚ) : ℚ :=
  totalDistanceMiles / 55

/-- ECMA-262 `toFixed(1)`: the digit string of the integer `n` nearest to
`10·q` (larger `n` on ties), with a decimal point before its last digit. -/
def toFixed1 (q : ℚ) : String :=
  let n : ℤ := round (q * 10)
  (if n < 0 then ("-") else ("")) ++ toString (n.natAbs / 10) ++ "." ++ toString (n.natAbs % 10)

/-- The distance half of the display at App.jsx line 210:
`totalDistance !== null ? totalDistance.toFixed(1) : 750`.  The `null`
branch interpolates the number literal `750`, which JS renders as the
string `750` with no decimal point. -/
def distanceDisplay : Option ℚ → String
  | some d => toFixed1 d
  | none => "750"

/-- The driving-time half of the display at App.jsx line 210:
`totalDistance !== null ? (totalDistance / 55).toFixed(1) : 13.6`.  The
`null` branch interpolates the literal `13.6`. -/
def timeDisplay : Option ℚ → String
  | some d => toFixed1 (estimatedDrivingHours d)
  | none => "13.6"

/-- The component state touched by `handleSubmit`: `logs`, `routePoints`,
`totalDistance`, `error`, `isCalculating` (`useState` hooks, App.jsx
lines 12-16). -/
structure AppState where
  logs : List DayLog
  routePoints : List Point
  totalDistance : Option ℚ
  error : String
  isCalculating : Bool
  deriving Repr, DecidableEq

/-- The initial hook state: empty logs and route points, `null` distance,
empty error, not calculating. -/
def initialAppState : AppState :=
  { logs := [], routePoints := [], totalDistance := none,
    error := "", isCalculating := false }

/-- The parsed JSON body of a service reply (`data` at App.jsx line 93).
Failure payloads need not carry `logs` or `route`; absent fields default
so that the failure branch never reads them. -/
structure TripPayload where
  success : Bool
  logs : List DayLog := []
  route_points : List Point := []
  total_distance : ℚ := 0
  error : Option String := none
  deriving Repr, DecidableEq

/-- What the awaited `fetch` and `response.json()` deliver to
`handleSubmit`: either a parsed response with its HTTP-ok bit
(`response.ok`, true exactly for 2xx statuses), or a thrown transport
error whose `message` may be empty (modelled as a possibly empty
string). -/
inductive Reply where
  | response (ok : Bool) (data : TripPayload)
  | transportError (message : String)
  deriving Repr, DecidableEq

/-- JS `a || b` on an optional string `a`: falsy values (`undefined`,
`null`, the empty string) fall through to `b`. -/
def jsOrElse : Option String → String → String
  | some s, d => if s = "" then d else s
  | none, d => d

/-- The synchronous prefix of `handleSubmit` (lines 75-77):
`setIsCalculating(true)` and `setError` with the empty string. -/
def beginSubmit (s : AppState) : AppState :=
  { s with isCalculating := true, error := "" }

/-- Settling one reply (lines 93-107): on `response.ok && data.success`,
store `data.logs`, `data.route.route_points`, `data.route.total_distance`;
otherwise throw `data.error || "Failed to generate logs"`, caught by the
`catch` which sets `err.message || "Network error. Please check your
Django backend."`; the `finally` clears `isCalculating` on every path. -/
def settleResponse (s : AppState) : Reply → AppState
  | .response ok data =>
    if ok && data.success then
      { s with logs := data.logs,
               routePoints := data.route_points,
               totalDistance := some data.total_distance,
               isCalculating := false }
    else
      { s with error := jsOrElse (some (jsOrElse data.error ("Failed to generate logs")))
                          ("Network error. Please check your Django backend."),
               isCalculating := false }
  | .transportError message =>
      { s with error := jsOrElse (some message)
                          ("Network error. Please check your Django backend."),
               isCalculating := false }

/-- A reply the code treats as failure: a thrown transport error, or a
response with `!response.ok || !data.success`. -/
def isFailureReply : Reply → Bool
  | .response ok data => !(ok && data.success)
  | .transportError _ => true

/-- The error message a failure reply produces, as a function of the
reply alone: the service `error` field when truthy, else
`Failed to generate logs` (line 100); for a thrown transport error, its
`message` when truthy, else the generic network fallback (line 103). -/
def replyErrorMessage : Reply → String
  | .response _ data =>
      jsOrElse (some (jsOrElse data.error ("Failed to generate logs")))
        ("Network error. Please check your Django backend.")
  | .transportError message =>
      jsOrElse (some message) ("Network error. Please check your Django backend.")

/-- The disabled binding of the submit button (App.jsx line 186):
`disabled={isCalculating}`. -/
def submitDisabled (s : AppState) : Bool :=
  s.isCalculating

/-- Payload of the first of two overlapping submissions (total distance
100). -/
def payloadA : TripPayload :=
  { success := true, logs := [⟨1, [], 5, 2, 9, 8⟩],
    route_points := [(1, 1), (2, 2), (3, 3)], total_distance := 100, error := none }

/-- Payload of the second of two overlapping submissions (total distance
200). -/
def payloadB : TripPayload :=
  { success := true, logs := [⟨1, [], 6, 3, 8, 7⟩],
    route_points := [(4, 4), (5, 5), (6, 6)], total_distance := 200, error := none }

/-- The state the map-init effect (App.jsx lines 22-39) reads and
writes: `mapContainerRef.current` (is the container mounted?),
`mapRef.current` (the Leaflet instance, identified by a creation index),
plus a ghost counter of how many `L.map` widgets were ever created. -/
structure MapInitState where
  hasContainer : Bool
  mapInst : Option ℕ
  created : ℕ
  deriving Repr, DecidableEq

/-- One run of the map-init effect body (lines 23-31): return unchanged
when `!mapContainerRef.current || mapRef.current`, else create the
widget and store it in `mapRef.current`. -/
def initMapEffect (s : MapInitState) : MapInitState :=
  if !s.hasContainer || s.mapInst.isSome then s
  else { s with mapInst := some s.created, created := s.created + 1 }

/-- A Leaflet marker as the route-sync effect creates it: coordinates
plus the bound popup text
(`L.marker(coords).addTo(map).bindPopup(popupText)`). -/
structure Marker where
  coords : Point
  popup : String
  deriving Repr, DecidableEq

/-- The layer bookkeeping the route-sync effect owns:
`markersRef.current` (a JS object keyed by role name, here an ordered
key-marker list), the polyline handle `polylineRef.current` (the points
it was built from), and the last `fitBounds` argument. -/
structure MapState where
  markers : List (String × Marker)
  polyline : Option (List Point)
  bounds : Option (List Point)
  deriving Repr, DecidableEq

/-- Layer cardinality: markers plus the route line, when present. -/
def layerCount (s : MapState) : ℕ :=
  s.markers.length + (if s.polyline.isSome then 1 else 0)

/-- One run of the route-sync effect body, faithful to App.jsx lines
42-70:

* `if (!mapRef.current || routePoints.length === 0) return;` makes the
  empty route an early return (`.ok` with the state unchanged);
* all previous markers are removed and `markersRef.current = {}`; the
  previous polyline is removed (the clearing is unconditional);
* `const [start, pickup, dropoff] = routePoints` destructures the first
  three elements, `undefined` past the end; `L.marker(undefined)`
  throws, so a route of length 1 or 2 aborts the effect mid-way
  (`.error` carrying the partially rebuilt state);
* otherwise three role-keyed markers, the polyline through ALL of
  `routePoints`, and `fitBounds([start, pickup, dropoff])`. -/
def routeSyncEffect (s : MapState) (routePoints : List Point)
    (currentLocation pickupLocation dropoffLocation : String) :
    Except (String × MapState) MapState :=
  if routePoints.length = 0 then .ok s
  else
    let cleared : MapState := { markers := [], polyline := none, bounds := s.bounds }
    match routePoints[0]? with
    | none => .error ("Invalid LatLng object", cleared)
    | some start =>
      let s1 := { cleared with
        markers := [("current", ⟨start, "Current Location: " ++ currentLocation⟩)] }
      match routePoints[1]? with
      | none => .error ("Invalid LatLng object", s1)
      | some pickup =>
        let s2 := { s1 with
          markers := s1.markers ++ [("pickup", ⟨pickup, "Pickup: " ++ pickupLocation⟩)] }
        match routePoints[2]? with
        | none => .error ("Invalid LatLng object", s2)
        | some dropoff =>
          .ok { markers := s2.markers ++ [("dropoff", ⟨dropoff, "Dropoff: " ++ dropoffLocation⟩)],
                polyline := some routePoints,
                bounds := some [start, pickup, dropoff] }

/-! Helper lemmas. -/

/-- The fold of `calculateTotalTripHours`, started from any accumulator. -/
theorem totalTripHours_foldl (logs : List DayLog) (acc : ℚ) :
    logs.foldl (fun acc day => acc + day.total_driving + day.total_on_duty) acc
      = acc + (logs.map (fun d => d.total_driving + d.total_on_duty)).sum := by
  induction logs generalizing acc with
  | nil => simp
  | cons d t ih => simp [List.foldl_cons, ih]; ring

/-- The function `calculateTotalTripHours` as a sum over days. -/
theorem calculateTotalTripHours_eq_sum (logs : List DayLog) :
    calculateTotalTripHours logs
      = (logs.map (fun d => d.total_driving + d.total_on_duty)).sum := by
  unfold calculateTotalTripHours
  rw [totalTripHours_foldl]
  ring

/-- Every `toFixed1` rendering contains a decimal point. -/
theorem dot_mem_toFixed1 (q : ℚ) : '.' ∈ (toFixed1 q).data := by
  show '.' ∈ ((_ ++ _ ++ "." ++ _ : String)).data
  rw [String.data_append, String.data_append, String.data_append]
  refine List.mem_append_left _ (List.mem_append_right _ ?_)
  decide

/-- Iterating the map-init effect preserves: either nothing was created
and no instance exists, or at most one was created and an instance
exists. -/
theorem initMap_iterate_invariant (n : ℕ) (s : MapInitState)
    (h : (s.created = 0 ∧ s.mapInst = none) ∨
         (s.created ≤ 1 ∧ s.mapInst.isSome = true)) :
    ((initMapEffect^[n] s).created = 0 ∧ (initMapEffect^[n] s).mapInst = none) ∨
    ((initMapEffect^[n] s).created ≤ 1 ∧ (initMapEffect^[n] s).mapInst.isSome = true) := by
  induction n generalizing s with
  | zero => simpa using h
  | succ n ih =>
    rw [Function.iterate_succ_apply]
    apply ih
    rcases h with ⟨hc, hm⟩ | ⟨hc, hm⟩
    · by_cases hcont : s.hasContainer
      · right
        simp [initMapEffect, hcont, hm, hc]
      · left
        simp [initMapEffect, hcont, hm, hc]
    · right
      simp [initMapEffect, hm, hc]

/-! Compliance-aggregator claims. -/

/-- Claim C3: `calculateRemainingCycle` equals
`max 0 (70 - (currentCycleUsed + totalTripHours))`; it is nonnegative
for nonnegative inputs; it is `0` exactly when
`currentCycleUsed + totalTripHours ≥ 70`; and at
`currentCycleUsed = 22.5` with logs whose driving plus on-duty hours sum
to `30`, it equals `17.5`. -/
theorem calculateRemainingCycle_spec :
    (∀ (c : ℚ) (logs : List DayLog),
        calculateRemainingCycle c logs
          = max 0 (70 - (c + calculateTotalTripHours logs))) ∧
    (∀ (c : ℚ) (logs : List DayLog), 0 ≤ c → 0 ≤ calculateTotalTripHours logs →
        0 ≤ calculateRemainingCycle c logs) ∧
    (∀ (c : ℚ) (logs : List DayLog),
        calculateRemainingCycle c logs = 0 ↔ 70 ≤ c + calculateTotalTripHours logs) ∧
    (∀ logs : List DayLog, calculateTotalTripHours logs = 30 →
        calculateRemainingCycle 22.5 logs = 17.5) := by
  refine ⟨fun c logs => rfl, fun c logs _ _ => le_max_left _ _, fun c logs => ?_, fun logs h => ?_⟩
  · unfold calculateRemainingCycle
    rw [max_eq_left_iff, sub_nonpos]
  · unfold calculateRemainingCycle
    rw [h]
    norm_num

/-- Witness for C3 at `currentCycleUsed = 22.5` and a two-day log summing
to 15 + 15 = 30 driving plus on-duty hours. -/
theorem calculateRemainingCycle_spec_witness :
    0 ≤ (22.5 : ℚ) ∧
    0 ≤ calculateTotalTripHours [⟨1, [], 11, 4, 8, 1⟩, ⟨2, [], 11, 4, 8, 1⟩] ∧
    calculateTotalTripHours [⟨1, [], 11, 4, 8, 1⟩, ⟨2, [], 11, 4, 8, 1⟩] = 30 ∧
    0 ≤ calculateRemainingCycle 22.5 [⟨1, [], 11, 4, 8, 1⟩, ⟨2, [], 11, 4, 8, 1⟩] ∧
    calculateRemainingCycle 22.5 [⟨1, [], 11, 4, 8, 1⟩, ⟨2, [], 11, 4, 8, 1⟩] = 17.5 ∧
    ¬ (70 ≤ (22.5 : ℚ) + calculateTotalTripHours [⟨1, [], 11, 4, 8, 1⟩, ⟨2, [], 11, 4, 8, 1⟩]) := by
  have h30 : calculateTotalTripHours [⟨1, [], 11, 4, 8, 1⟩, ⟨2, [], 11, 4, 8, 1⟩] = (30 : ℚ) := by
    with_unfolding_all decide
  refine ⟨by norm_num, by rw [h30]; norm_num, h30,
    calculateRemainingCycle_spec.2.1 22.5 _ (by norm_num) (by rw [h30]; norm_num),
    calculateRemainingCycle_spec.2.2.2 _ h30, ?_⟩
  intro hcontra
  have h0 := (calculateRemainingCycle_spec.2.2.1 22.5
    [⟨1, [], 11, 4, 8, 1⟩, ⟨2, [], 11, 4, 8, 1⟩]).mpr hcontra
  rw [calculateRemainingCycle_spec.2.2.2 _ h30] at h0
  norm_num at h0

/-- Claim C4: `calculateTotalTripHours` is the sum over all days of
`total_driving + total_on_duty`; it is `0` on the empty list; and it
counts neither sleeper-berth nor off-duty hours (replacing those two
fields in every day leaves it unchanged). -/
theorem calculateTotalTripHours_spec :
    (∀ logs : List DayLog,
        calculateTotalTripHours logs
          = (logs.map (fun d => d.total_driving + d.total_on_duty)).sum) ∧
    calculateTotalTripHours [] = 0 ∧
    (∀ (logs : List DayLog) (s o : ℚ),
        calculateTotalTripHours
          (logs.map (fun d => { d with total_sleeper := s, total_off_duty := o }))
          = calculateTotalTripHours logs) := by
  refine ⟨calculateTotalTripHours_eq_sum, rfl, fun logs s o => ?_⟩
  rw [calculateTotalTripHours_eq_sum, calculateTotalTripHours_eq_sum, List.map_map]
  rfl

/-- Claim C5: with a `totalDistance` present, the estimated driving time
is `totalDistance / 55` (770 miles render as 14.0 hours, within 0.05 of
14); with no result yet, the display is the placeholder pair
(750, 13.6); and the placeholder pair differs from the rendering of
every real result (a real distance is rendered by `toFixed(1)` and
always carries a decimal point, while the placeholder distance 750 does
not). -/
theorem displayEstimate_spec :
    (∀ d : ℚ, estimatedDrivingHours d = d / 55) ∧
    estimatedDrivingHours 770 = 14 ∧
    |estimatedDrivingHours 770 - 14| ≤ 0.05 ∧
    timeDisplay (some 770) = "14.0" ∧
    distanceDisplay none = "750" ∧
    timeDisplay none = "13.6" ∧
    (∀ d : ℚ, (distanceDisplay (some d), timeDisplay (some d))
        ≠ (distanceDisplay none, timeDisplay none)) := by
  have h770 : estimatedDrivingHours 770 = 14 := by unfold estimatedDrivingHours; norm_num
  refine ⟨fun d => rfl, h770, by rw [h770]; norm_num,
    by with_unfolding_all decide, rfl, rfl, fun d => ?_⟩
  intro hpair
  have hd : distanceDisplay (some d) = distanceDisplay none :=
    congrArg Prod.fst hpair
  have hmem : '.' ∈ (distanceDisplay none).data := hd ▸ dot_mem_toFixed1 d
  exact absurd hmem (by decide)

/-- Witness for the universally quantified distinguishability conjunct of
C5 at the concrete distance 770. -/
theorem displayEstimate_spec_witness :
    (distanceDisplay (some 770), timeDisplay (some 770))
      ≠ (distanceDisplay none, timeDisplay none) :=
  displayEstimate_spec.2.2.2.2.2.2 770

/-! Request-lifecycle claims. -/

/-- Claim C6: settling a failed submission started from a quiescent state
`s` (e.g. one holding a prior successful result) changes only the error
message: logs, route points and total distance are those of `s`, and the
error is a function of the reply alone, so it replaces whatever error `s`
held. -/
theorem failureKeepsLastKnownGood (s : AppState) (r : Reply)
    (hfail : isFailureReply r = true) (hquiet : s.isCalculating = false) :
    settleResponse (beginSubmit s) r = { s with error := replyErrorMessage r } := by
  cases s
  cases r with
  | response ok data =>
    have hko : (ok && data.success) = false := by
      cases h2 : (ok && data.success) <;> simp [isFailureReply, h2] at hfail ⊢
    simp only [beginSubmit, settleResponse, replyErrorMessage, hko, Bool.false_eq_true,
      if_false]
    simp_all
  | transportError message =>
    simp only [beginSubmit, settleResponse, replyErrorMessage]
    simp_all

/-- Witness for C6: a prior-success state plus a failure reply carrying
an error field; the settled state keeps the stored result and shows only
the new error. -/
theorem failureKeepsLastKnownGood_witness :
    settleResponse
        (beginSubmit
          { logs := [⟨1, [], 11, 4, 8, 1⟩], routePoints := [(1, 2), (3, 4), (5, 6)],
            totalDistance := some 100, error := "old error", isCalculating := false })
        (.response true { success := false, error := some ("boom") })
      = { logs := [⟨1, [], 11, 4, 8, 1⟩], routePoints := [(1, 2), (3, 4), (5, 6)],
          totalDistance := some 100, error := "boom", isCalculating := false } := by
  have h := failureKeepsLastKnownGood
    { logs := [⟨1, [], 11, 4, 8, 1⟩], routePoints := [(1, 2), (3, 4), (5, 6)],
      totalDistance := some 100, error := "old error", isCalculating := false }
    (.response true { success := false, error := some ("boom") })
    (by decide) rfl
  rw [h]
  rfl

/-- Claim C7: a service reply is applied as a success (storing logs,
route points and distance together, atomically) exactly when
`response.ok && data.success`; any other reply leaves the stored result
alone and sets the error to the service-provided message when truthy,
else the generic fallback `Failed to generate logs`. -/
theorem successApplicationCondition (s : AppState) (ok : Bool) (data : TripPayload) :
    ((ok && data.success) = true →
      settleResponse s (.response ok data)
        = { s with logs := data.logs, routePoints := data.route_points,
                   totalDistance := some data.total_distance, isCalculating := false }) ∧
    ((ok && data.success) = false →
      settleResponse s (.response ok data)
        = { s with error := jsOrElse data.error ("Failed to generate logs"),
                   isCalculating := false }) := by
  constructor
  · intro h
    simp [settleResponse, h]
  · intro h
    have hmsg : jsOrElse (some (jsOrElse data.error ("Failed to generate logs")))
        ("Network error. Please check your Django backend.")
        = jsOrElse data.error ("Failed to generate logs") := by
      cases data.error with
      | none => rfl
      | some e =>
        by_cases he : e = "" <;> simp [jsOrElse, he]
    simp [settleResponse, h, hmsg]

/-- Witness for C7: a 2xx reply with a true success flag is applied; the
same shape with a false HTTP-ok bit is not, and surfaces its error
message. -/
theorem successApplicationCondition_witness :
    settleResponse initialAppState
        (.response true { success := true, logs := [⟨1, [], 11, 4, 8, 1⟩],
                          route_points := [(1, 2)], total_distance := 100, error := none })
      = { logs := [⟨1, [], 11, 4, 8, 1⟩], routePoints := [(1, 2)],
          totalDistance := some 100, error := "", isCalculating := false } ∧
    settleResponse initialAppState (.response false { success := true, error := some ("bad") })
      = { initialAppState with error := "bad", isCalculating := false } := by
  constructor
  · rw [(successApplicationCondition initialAppState true
      { success := true, logs := [⟨1, [], 11, 4, 8, 1⟩],
        route_points := [(1, 2)], total_distance := 100, error := none }).1 rfl]
    rfl
  · rw [(successApplicationCondition initialAppState false
      { success := true, error := some ("bad") }).2 rfl]
    rfl

/-- Claim C10: whatever the reply — success, service-reported failure, or
a thrown transport error — the `finally` clause leaves
`isCalculating = false`, so after a submission settles the lifecycle is
never stuck in-flight and the submit button is re-enabled.  (During
flight, `beginSubmit` had set it to `true`.) -/
theorem isCalculatingResetOnSettle (s : AppState) (r : Reply) :
    (settleResponse (beginSubmit s) r).isCalculating = false ∧
    submitDisabled (settleResponse (beginSubmit s) r) = false ∧
    (beginSubmit s).isCalculating = true := by
  refine ⟨?_, ?_, rfl⟩ <;>
    cases r with
    | response ok data =>
      by_cases h : (ok && data.success) = true <;>
        simp [settleResponse, submitDisabled, h]
    | transportError message => rfl

/-- Claim C1, refuted by the code: `handleSubmit` carries no sequence
number or cancellation, so each awaited reply is applied by
`settleResponse` whenever it arrives.  With two overlapping submissions
(payloadA then payloadB) where the reply of the first arrives after the
reply of the second, the event order is begin-submit of A, begin-submit
of B, settle with the reply of B, settle with the stale reply of A — and
the final state holds the logs, route points and distance of the FIRST
submission: the stale reply is applied, not discarded, so the displayed
result is not the payload of the latest submission. -/
theorem staleReplyOverwritesLatest :
    settleResponse
        (settleResponse (beginSubmit (beginSubmit initialAppState))
          (.response true payloadB))
        (.response true payloadA)
      = { logs := payloadA.logs, routePoints := payloadA.route_points,
          totalDistance := some payloadA.total_distance, error := "",
          isCalculating := false } ∧
    payloadA.total_distance ≠ payloadB.total_distance ∧
    payloadA.logs ≠ payloadB.logs ∧
    payloadA.route_points ≠ payloadB.route_points := by
  refine ⟨rfl, ?_, ?_, ?_⟩ <;> with_unfolding_all decide

/-! Map-synchronization claims. -/

/-- Claim C2: for valid routes of length 3, applying the route-sync
effect twice in a row (same or different routes and labels) leaves
exactly the layer set of a single application: three role-keyed markers
(current, pickup, dropoff) plus one polyline — cardinality 4 — because
every call clears all previous markers and the previous route line
before rebuilding. -/
theorem routeSync_reapply_same_cardinality (s : MapState)
    (r r' : List Point) (c p d c' p' d' : String)
    (h : r.length = 3) (h' : r'.length = 3) :
    ∃ s1 s2,
      routeSyncEffect s r c p d = .ok s1 ∧
      routeSyncEffect s1 r' c' p' d' = .ok s2 ∧
      layerCount s2 = layerCount s1 ∧
      layerCount s1 = 4 ∧
      s1.markers.map Prod.fst = ["current", "pickup", "dropoff"] ∧
      s2.markers.map Prod.fst = ["current", "pickup", "dropoff"] ∧
      s2.polyline = some r' := by
  obtain ⟨a, b, e, rfl⟩ := List.length_eq_three.mp h
  obtain ⟨a', b', e', rfl⟩ := List.length_eq_three.mp h'
  exact ⟨_, _, rfl, rfl, rfl, rfl, rfl, rfl, rfl⟩

/-- Witness for C2 at two concrete length-3 routes. -/
theorem routeSync_reapply_same_cardinality_witness :
    ∃ s1 s2,
      routeSyncEffect ⟨[], none, none⟩ [(1, 1), (2, 2), (3, 3)] "A" "B" "C" = .ok s1 ∧
      routeSyncEffect s1 [(4, 4), (5, 5), (6, 6)] "A" "B" "C" = .ok s2 ∧
      layerCount s2 = layerCount s1 ∧
      layerCount s1 = 4 ∧
      s1.markers.map Prod.fst = ["current", "pickup", "dropoff"] ∧
      s2.markers.map Prod.fst = ["current", "pickup", "dropoff"] ∧
      s2.polyline = some [(4, 4), (5, 5), (6, 6)] :=
  routeSync_reapply_same_cardinality ⟨[], none, none⟩
    [(1, 1), (2, 2), (3, 3)] [(4, 4), (5, 5), (6, 6)]
    "A" "B" "C" "A" "B" "C" rfl rfl

/-- Counterexample to claim C8: a route of length 4 is not rejected — the
effect completes normally (`.ok`), silently building markers from the
first three points and the polyline through all four. -/
theorem routeSync_accepts_length_four :
    routeSyncEffect ⟨[], none, none⟩ [(1, 1), (2, 2), (3, 3), (4, 4)] "A" "B" "C"
      = .ok { markers := [("current", ⟨(1, 1), "Current Location: A"⟩),
                          ("pickup", ⟨(2, 2), "Pickup: B"⟩),
                          ("dropoff", ⟨(3, 3), "Dropoff: C"⟩)],
              polyline := some [(1, 1), (2, 2), (3, 3), (4, 4)],
              bounds := some [(1, 1), (2, 2), (3, 3)] } ∧
    ([(1, 1), (2, 2), (3, 3), (4, 4)] : List Point).length ≠ 3 :=
  ⟨rfl, by decide⟩

/-- Claim C8 as amended — the actual behavior of the effect by route
length: an empty route is silently ignored (early return, state
unchanged); a route of length 1 or 2 aborts with a thrown error (marker
creation receives an undefined coordinate), an incidental failure rather
than a deliberate guard; and a route of length 3 or more is silently
accepted. -/
theorem routeSync_length_behavior (s : MapState) (r : List Point) (c p d : String) :
    (r.length = 0 → routeSyncEffect s r c p d = .ok s) ∧
    (r.length = 1 ∨ r.length = 2 → (routeSyncEffect s r c p d).isOk = false) ∧
    (3 ≤ r.length → (routeSyncEffect s r c p d).isOk = true) := by
  rcases r with _ | ⟨a, _ | ⟨b, _ | ⟨e, rest⟩⟩⟩
  · exact ⟨fun _ => rfl, by simp, by simp⟩
  · refine ⟨by simp [List.length], fun _ => rfl, by simp⟩
  · refine ⟨by simp [List.length], fun _ => rfl, by simp⟩
  · refine ⟨by simp [List.length], by simp [List.length], fun _ => ?_⟩
    simp [routeSyncEffect, Except.isOk, Except.toBool]

/-- Witness for the amended C8: a singleton route aborts, the empty route
is a no-op, and a length-3 route is accepted. -/
theorem routeSync_length_behavior_witness :
    (routeSyncEffect ⟨[], none, none⟩ [(1, 1)] "A" "B" "C").isOk = false ∧
    routeSyncEffect ⟨[], none, none⟩ [] "A" "B" "C" = .ok ⟨[], none, none⟩ ∧
    (routeSyncEffect ⟨[], none, none⟩ [(1, 1), (2, 2), (3, 3)] "A" "B" "C").isOk = true :=
  ⟨(routeSync_length_behavior ⟨[], none, none⟩ [(1, 1)] "A" "B" "C").2.1 (Or.inl rfl),
   (routeSync_length_behavior ⟨[], none, none⟩ [] "A" "B" "C").1 rfl,
   (routeSync_length_behavior ⟨[], none, none⟩ [(1, 1), (2, 2), (3, 3)] "A" "B" "C").2.2
     (by decide)⟩

/-- Claim C9: map initialization is idempotent — when an instance already
exists the effect is a no-op, running it twice equals running it once,
and starting from a fresh component (no instance, nothing created yet)
any number of runs creates at most one map widget. -/
theorem initMapEffect_idempotent_spec :
    (∀ s : MapInitState, s.mapInst.isSome = true → initMapEffect s = s) ∧
    (∀ s : MapInitState, initMapEffect (initMapEffect s) = initMapEffect s) ∧
    (∀ (s : MapInitState) (n : ℕ), s.mapInst = none → s.created = 0 →
        (initMapEffect^[n] s).created ≤ 1) := by
  have hsome : ∀ s : MapInitState, s.mapInst.isSome = true → initMapEffect s = s := by
    intro s h
    simp [initMapEffect, h]
  refine ⟨hsome, fun s => ?_, fun s n hm hc => ?_⟩
  · by_cases h : (!s.hasContainer || s.mapInst.isSome) = true
    · have hs : initMapEffect s = s := by simp [initMapEffect, h]
      rw [hs]
      exact hs
    · have hcont : s.hasContainer = true := by
        cases hh : s.hasContainer <;> simp [hh] at h ⊢
      have hm : s.mapInst.isSome = false := by
        cases hmm : s.mapInst.isSome <;> simp [hcont, hmm] at h ⊢
      have hstep : initMapEffect s
          = { s with mapInst := some s.created, created := s.created + 1 } := by
        simp [initMapEffect, hcont, hm]
      rw [hstep]
      exact hsome _ rfl
  · rcases initMap_iterate_invariant n s (Or.inl ⟨hc, hm⟩) with ⟨h0, _⟩ | ⟨h1, _⟩
    · omega
    · exact h1

/-- Witness for C9: an already-initialized state is untouched, and five
runs from a fresh mounted component create at most one widget. -/
theorem initMapEffect_idempotent_spec_witness :
    initMapEffect ⟨true, some 0, 1⟩ = ⟨true, some 0, 1⟩ ∧
    (initMapEffect^[5] ⟨true, none, 0⟩).created ≤ 1 :=
  ⟨initMapEffect_idempotent_spec.1 ⟨true, some 0, 1⟩ rfl,
   initMapEffect_idempotent_spec.2.2 ⟨true, none, 0⟩ 5 rfl rfl⟩

end TruckLog
